import Mathlib

/-!
Verification development for the rule-testing harness of the `semgrep`
repository (`semgrep/test.py`).  Python string and path manipulation is
embedded on `List Char` / `String`; dictionaries-of-dictionaries of line
numbers are embedded as lists of `(file, rule, line)` triples; the
external engine (`invoke_semgrep`) is a function parameter returning
`Except`; `sys.exit` inside `get_expected_and_reported_lines` is embedded
as the `Except` error case carrying the exit code.
-/

/-! ## Python string primitives -/

/-- Embedding of Python `str.strip()` (on the character list): drop
whitespace from both ends. -/
def trimChars (l : List Char) : List Char :=
  ((l.dropWhile Char.isWhitespace).reverse.dropWhile Char.isWhitespace).reverse

/-- Embedding of Python `str.split(sep)` for a single-character separator:
split into the (possibly empty) chunks between occurrences of `sep`. -/
def splitChar (sep : Char) : List Char → List (List Char)
  | [] => [[]]
  | c :: rest =>
    match splitChar sep rest with
    | [] => [[]]
    | h :: t => if c = sep then [] :: h :: t else (c :: h) :: t

/-- Embedding of Python `sub in s` (substring test). -/
def listContainsSub (s sub : List Char) : Bool :=
  s.tails.any (fun t => sub.isPrefixOf t)

/-- Fuelled worker for `removeAllOcc`; the fuel bounds the number of
steps (each step consumes at least one character, so `l.length` fuel is
always enough). -/
def removeAllOccFuel (pat : List Char) : Nat → List Char → List Char
  | 0, l => l
  | fuel + 1, l =>
    match l with
    | [] => []
    | c :: rest =>
      if pat.isPrefixOf (c :: rest) ∧ pat ≠ [] then
        removeAllOccFuel pat fuel ((c :: rest).drop pat.length)
      else
        c :: removeAllOccFuel pat fuel rest

/-- Embedding of Python `s.replace(pat, "")` for a non-empty pattern:
remove every (left-to-right, non-overlapping) occurrence of `pat`. -/
def removeAllOcc (pat : List Char) (l : List Char) : List Char :=
  removeAllOccFuel pat l.length l

/-- String wrapper for `trimChars`: Python `s.strip()`. -/
def pyStrip (s : String) : String := ⟨trimChars s.data⟩

/-- String wrapper for `splitChar`: Python `s.split(sep)`. -/
def pySplit (sep : Char) (s : String) : List String :=
  (splitChar sep s.data).map (fun l => ⟨l⟩)

/-- String wrapper for `removeAllOcc`: Python `s.replace(pat, "")`. -/
def pyReplace (s pat : String) : String := ⟨removeAllOcc pat.data s.data⟩

/-- String wrapper for `listContainsSub`: Python `sub in s`. -/
def pyContains (s sub : String) : Bool := listContainsSub s.data sub.data

/-- Embedding of Python `s.startswith(pre)`. -/
def pyStartsWith (s pre : String) : Bool := pre.data.isPrefixOf s.data

/-- Number of chunks produced by `splitChar` is the separator count plus one
(this is how Python's `str.split` relates to the number of separators). -/
theorem splitChar_length (sep : Char) (l : List Char) :
    (splitChar sep l).length = l.count sep + 1 := by
  induction l with
  | nil => simp [splitChar]
  | cons c rest ih =>
    simp only [splitChar]
    rcases h : splitChar sep rest with _ | ⟨hd, tl⟩
    · simp [h] at ih
    · by_cases hc : c = sep
      · simp only [hc, if_pos rfl, List.length_cons]
        rw [h] at ih
        simp only [List.length_cons] at ih
        rw [List.count_cons]
        simp [ih]
      · simp only [if_neg hc, List.length_cons]
        rw [h] at ih
        simp only [List.length_cons] at ih
        rw [List.count_cons]
        simp only [beq_iff_eq]
        rw [if_neg (by exact fun hh => hc hh)]
        omega

/-! ## Annotation extractor (`semgrep/test.py` lines 52-122, 179-222) -/

/-- `COMMENT_SYNTAXES` from `test.py`: pairs of comment opening and closing
tokens. -/
def COMMENT_SYNTAXES : List (String × String) :=
  [("#", "\n"), ("//", "\n"), ("<!--", "-->"), ("(*", "*)")]

/-- `SPACE_OR_NO_SPACE` from `test.py`. -/
def SPACE_OR_NO_SPACE : List String := ["", " "]

/-- `EXIT_FAILURE` from `test.py` (the distinct exit code used by the
rule-id mismatch check). -/
def EXIT_FAILURE : Nat := 2

/-- `_remove_ending_comments` from `test.py`: for each comment syntax,
strip the rule text, and for the non-newline closing tokens additionally
remove every occurrence of the closing token. -/
def remove_ending_comments (rule : String) : String :=
  COMMENT_SYNTAXES.foldl
    (fun r se => if se.2 = "\n" then pyStrip r else pyReplace (pyStrip r) se.2)
    rule

/-- `normalize_rule_ids` from `test.py`.  Python does
`_, rules_text = line.strip().split(":")`, which raises `ValueError`
unless the split yields exactly two pieces; the `ValueError` is embedded
as the `Except.error` case.  On success the remainder is split on `,`,
each piece is cleaned, stripped and empty pieces are dropped; the Python
`set` is embedded as a deduplicated list. -/
def normalize_rule_ids (line : String) : Except Unit (List String) :=
  match splitChar ':' (trimChars line.data) with
  | [_, rules_text] =>
    let rules := splitChar ',' (trimChars rules_text)
    let rules_clean := rules.map (fun r => remove_ending_comments ⟨r⟩)
    .ok (((rules_clean.map pyStrip).filter (fun r => r ≠ "")).dedup)
  | _ => .error ()

/-- Modelled from the spec's words for the annotation parser (spec 4.2 /
claim C5): split the stripped line on the FIRST `:` only, take the whole
remainder, then apply the same downstream cleaning as the source
(`split(",")`, strip, remove comment-closing tokens, drop empties).  Used
to compare the spec's description against `normalize_rule_ids`. -/
def normalize_rule_ids_first_colon (line : String) : List String :=
  match splitChar ':' (trimChars line.data) with
  | [] => []
  | _ :: parts =>
    let rules_text := List.intercalate [':'] parts
    let rules := splitChar ',' (trimChars rules_text)
    let rules_clean := rules.map (fun r => remove_ending_comments ⟨r⟩)
    ((rules_clean.map pyStrip).filter (fun r => r ≠ "")).dedup

/-- `_annotations` from `test.py`: all renderings of a marker word under
the supported comment syntaxes with zero or one leading space. -/
def marker_renderings (marker : String) : List String :=
  COMMENT_SYNTAXES.flatMap
    (fun cs => SPACE_OR_NO_SPACE.map (fun sp => cs.1 ++ sp ++ marker))

/-- `line_has_todo_rule` from `test.py`. -/
def line_has_todo_rule (line : String) : Bool :=
  (marker_renderings "todoruleid").any (fun a => pyContains line a)

/-- `line_has_rule` from `test.py`. -/
def line_has_rule (line : String) : Bool :=
  (marker_renderings "ruleid").any (fun a => pyContains line a)

/-- `line_has_ok` from `test.py`. -/
def line_has_ok (line : String) : Bool :=
  (marker_renderings "ok").any (fun a => pyContains line a)

/-- `line_has_todo_ok` from `test.py`. -/
def line_has_todo_ok (line : String) : Bool :=
  (marker_renderings "todook").any (fun a => pyContains line a)

/-- The candidate test from lines 191-193 of `test.py`: some marker is
present and the line contains a `:`. -/
def has_parseable_rule_id (line : String) : Bool :=
  (line_has_rule line || line_has_todo_rule line
    || line_has_ok line || line_has_todo_ok line)
  && pyContains line ":"

/-- The guard under which a line contributes to `ruleid_lines`
(`test.py` line 199: `if todo_rule_in_line or rule_in_line`). -/
def keep_ruleid (line : String) : Bool :=
  line_has_todo_rule line || line_has_rule line

/-- The guard under which a line contributes to `ok_lines`
(`test.py` line 203: `if todo_rule_in_line or ok_in_line`). -/
def keep_ok (line : String) : Bool :=
  line_has_todo_rule line || line_has_ok line

/-- The guard under which a line contributes to `todo_ok_lines`
(`test.py` line 207). -/
def keep_todo_ok (line : String) : Bool := line_has_todo_ok line

/-- The guard under which a line contributes to `todo_ruleid_lines`
(`test.py` line 211). -/
def keep_todo_ruleid (line : String) : Bool := line_has_todo_rule line

/-- Python `test_file.read_text().split("\n")`. -/
def fileLines (content : String) : List String :=
  (splitChar '\n' content.data).map (fun l => ⟨l⟩)

/-- The contribution of one source line (at 0-based index `i`) of file
`name` to one of the four annotation dictionaries, given the dictionary's
guard `keep` (`test.py` lines 182-222).  The nested
`dict[file][rule].append(i + 2)` calls are embedded as
`(file, rule, line-number)` triples.  A line that fails the candidate
test contributes nothing; a line whose `normalize_rule_ids` raises is
skipped (the `except ValueError` handler). -/
def line_contribution (keep : String → Bool) (name : String)
    (i : Nat) (line : String) : List (String × String × Nat) :=
  if has_parseable_rule_id line then
    match normalize_rule_ids line with
    | .ok ids => if keep line then ids.map (fun r => (name, r, i + 2)) else []
    | .error _ => []
  else []

/-- The inner loop of lines 182-222 over the enumerated lines of one
file. -/
def extract_lines (keep : String → Bool) (name : String) (ls : List String) :
    List (String × String × Nat) :=
  ls.enum.flatMap (fun il => line_contribution keep name il.1 il.2)

/-- One of the four annotation dictionaries accumulated by the loop at
`test.py` lines 179-222, for the guard `keep`, over files given as
(resolved path, raw text) pairs. -/
def extract_kind (keep : String → Bool) (files : List (String × String)) :
    List (String × String × Nat) :=
  files.flatMap (fun fl => extract_lines keep fl.1 (fileLines fl.2))

/-- `ruleid_lines` of `get_expected_and_reported_lines`. -/
def ruleid_triples (files : List (String × String)) : List (String × String × Nat) :=
  extract_kind keep_ruleid files

/-- `ok_lines` of `get_expected_and_reported_lines`. -/
def ok_triples (files : List (String × String)) : List (String × String × Nat) :=
  extract_kind keep_ok files

/-- `todo_ok_lines` of `get_expected_and_reported_lines`. -/
def todo_ok_triples (files : List (String × String)) : List (String × String × Nat) :=
  extract_kind keep_todo_ok files

/-- `todo_ruleid_lines` of `get_expected_and_reported_lines`. -/
def todo_ruleid_triples (files : List (String × String)) : List (String × String × Nat) :=
  extract_kind keep_todo_ruleid files

/-! ## Finding reconciler (`semgrep/test.py` lines 124-146, 224-255, 404-411) -/

/-- One entry of `json_out["results"]`: path (already resolved), rule id,
1-based start line. -/
structure ScanResult where
  path : String
  check_id : String
  start : Nat
deriving DecidableEq, Repr

/-- `reported_lines` of `get_expected_and_reported_lines` (lines 224-228),
flattened to triples in iteration order. -/
def reported_triples (results : List ScanResult) : List (String × String × Nat) :=
  results.map (fun r => (r.path, r.check_id, r.start))

/-- The line-number list stored under `dict[f][c]` in one of the
triple-encoded dictionaries (missing keys give `[]`, matching the
`defaultdict` behaviour). -/
def linesOf (T : List (String × String × Nat)) (f c : String) : List Nat :=
  (T.filter (fun t => t.1 == f && t.2.1 == c)).map (fun t => t.2.2)

/-- The key set `dict[f].keys()` of a triple-encoded dictionary. -/
def fileKeys (T : List (String × String × Nat)) (f : String) : List String :=
  ((T.filter (fun t => t.1 == f)).map (fun t => t.2.1)).dedup

/-- The outer key set `dict.keys()` of a triple-encoded dictionary. -/
def allFiles (T : List (String × String × Nat)) : List String :=
  (T.map (fun t => t.1)).dedup

/-- Equality of two key lists viewed as sets (Python
`test_ids.symmetric_difference(reported_ids)` is empty iff this holds). -/
def setEqL (a b : List String) : Bool :=
  a.all (fun x => b.contains x) && b.all (fun x => a.contains x)

/-- The domain of `test_lines` (lines 230-233): the files appearing in
`ruleid_lines` or `ok_lines`. -/
def test_line_files (ruleidT okT : List (String × String × Nat)) : List String :=
  ((ruleidT ++ okT).map (fun t => t.1)).dedup

/-- `test_lines[f]` (lines 230-233): union of the rule ids appearing for
`f` in `ruleid_lines` and `ok_lines`. -/
def test_ids (ruleidT okT : List (String × String × Nat)) (f : String) : List String :=
  (fileKeys ruleidT f ++ fileKeys okT f).dedup

/-- The condition under which `check_rule_id_mismatch` (lines 124-146)
calls `sys.exit(EXIT_FAILURE)`: `reported_lines` must be non-empty (the
`if reported_lines:` guard), and some file of `test_lines` must have a
non-empty symmetric difference between its annotation ids and its
reported ids. -/
def rule_id_mismatch (reportedT ruleidT okT : List (String × String × Nat)) : Bool :=
  !reportedT.isEmpty
  && (test_line_files ruleidT okT).any
      (fun f => !(setEqL (test_ids ruleidT okT f) (fileKeys reportedT f)))

/-- Python `sorted(s)` for a set of line numbers represented as a
duplicate-free list. -/
def sortNat (l : List Nat) : List Nat :=
  List.insertionSort (fun a b => a ≤ b) l

/-- The per-key verdict data of lines 242-253: `reported` is the set of
scanner-reported lines minus the todo-ok lines minus the todo-ruleid
lines, `expected` is the set of ruleid-annotated lines minus the
todo-ruleid lines minus the todo-ok lines; both are returned sorted. -/
def verdict_pair (ruleidT todoOkT todoRuleidT reportedT : List (String × String × Nat))
    (f c : String) : List Nat × List Nat :=
  let all_reported := (linesOf reportedT f c).dedup
  let expected := (linesOf ruleidT f c).dedup
  let todo_oked := (linesOf todoOkT f c).dedup
  let todo_ruleid := (linesOf todoRuleidT f c).dedup
  let reported :=
    (all_reported.filter (fun n => !todo_oked.contains n)).filter
      (fun n => !todo_ruleid.contains n)
  let expected2 :=
    (expected.filter (fun n => !todo_ruleid.contains n)).filter
      (fun n => !todo_oked.contains n)
  (sortNat expected2, sortNat reported)

/-- `get_expected_and_reported_lines` from `test.py` (lines 149-255).
The `sys.exit(EXIT_FAILURE)` performed by `check_rule_id_mismatch` before
any verdict is computed is embedded as `Except.error EXIT_FAILURE`.  The
returned `matches_by_check_id` (check id → file → expected/reported
lists) is flattened to a list of `(check_id, file, (expected, reported))`
entries; the keys iterated are
`join_keys(ruleid_lines, reported_lines)` for files and
`join_keys(ruleid_lines[f], reported_lines[f])` for check ids. -/
def get_expected_and_reported_lines (results : List ScanResult)
    (files : List (String × String)) :
    Except Nat (List (String × String × List Nat × List Nat)) :=
  let ruleidT := ruleid_triples files
  let okT := ok_triples files
  let todoOkT := todo_ok_triples files
  let todoRuleidT := todo_ruleid_triples files
  let reportedT := reported_triples results
  if rule_id_mismatch reportedT ruleidT okT then
    .error EXIT_FAILURE
  else
    .ok ((allFiles (ruleidT ++ reportedT)).flatMap (fun f =>
      ((fileKeys ruleidT f ++ fileKeys reportedT f).dedup).map (fun c =>
        (c, f, verdict_pair ruleidT todoOkT todoRuleidT reportedT f c))))

/-- `checkid_passed` from `test.py` (lines 404-411): a check passes iff
every file of its matches has equal expected and reported line lists. -/
def checkid_passed (matches_for_checkid : List (String × List Nat × List Nat)) : Bool :=
  matches_for_checkid.all (fun m => m.2.1 == m.2.2)

/-! ## Execution orchestrator (`semgrep/test.py` lines 280-291, 456-457) -/

/-- A Python exception crossing the wrapper; only its string rendering
(`str(error)`) is observable. -/
structure PyExn where
  msg : String
deriving DecidableEq, Repr

/-- The structured value returned by the external engine: either the
empty dict `{}` or a dict carrying a `results` list. -/
inductive JsonOut where
  | empty : JsonOut
  | withResults (rs : List ScanResult) : JsonOut
deriving DecidableEq, Repr

/-- `invoke_semgrep_multi` from `test.py` (lines 280-291): run the engine
(`invoke`, a parameter standing for `invoke_semgrep` plus its keyword
options) and return `(config, error-string-or-none, output)`; an
exception is caught and carried as `str(error)` with output `{}`. -/
def invoke_semgrep_multi (invoke : String → List String → Except PyExn JsonOut)
    (config : String) (targets : List String) :
    String × Option String × JsonOut :=
  match invoke config targets with
  | .error e => (config, some e.msg, .empty)
  | .ok output => (config, none, output)

/-- `pool.starmap(invoke_semgrep_fn, config_with_tests)` (line 457): the
pool applies the wrapper to every (config, target list) pair; results are
collected in input order. -/
def run_scan_pool (invoke : String → List String → Except PyExn JsonOut)
    (config_with_tests : List (String × List String)) :
    List (String × Option String × JsonOut) :=
  config_with_tests.map (fun ct => invoke_semgrep_multi invoke ct.1 ct.2)

/-! ## Path resolver (`semgrep/test.py` lines 293-360) -/

/-- A filesystem path, embedded as its list of components (Python
`pathlib.Path.parts`). -/
structure PyPath where
  segments : List String
deriving DecidableEq, Repr

/-- `Path.name`: the final component (empty for an empty path). -/
def PyPath.name (p : PyPath) : String := (p.segments.getLast?).getD ""

/-- `Path.parent.name`: the name of the immediate parent (empty when the
parent is `.` or the filesystem root). -/
def PyPath.parentName (p : PyPath) : String :=
  (p.segments.dropLast.getLast?).getD ""

/-- `os.path` `rfind`-style search: index of the last occurrence of `c`
in `l`, or `-1` when absent. -/
def rfindChar (c : Char) (l : List Char) : Int :=
  let j := l.reverse.indexOf c
  if j = l.length then -1 else ((l.length - 1 - j : Nat) : Int)

/-- `os.path.splitext` (CPython `genericpath._splitext` with `sep = '/'`
and no `altsep`): split off the extension beginning at the last `.` that
lies after the last `/` and is preceded (within the basename) by some
non-dot character. -/
def splitext (p : String) : String × String :=
  let l := p.data
  let sepIndex := rfindChar '/' l
  let dotIndex := rfindChar '.' l
  if sepIndex < dotIndex then
    let filenamePart := (l.drop (sepIndex + 1).toNat).take (dotIndex - sepIndex - 1).toNat
    if filenamePart.any (fun ch => ch ≠ '.') then
      (⟨l.take dotIndex.toNat⟩, ⟨l.drop dotIndex.toNat⟩)
    else (p, "")
  else (p, "")

/-- `create_temporary_copy` from `test.py` (lines 293-298): the copy is
placed in the temp directory under a fresh uuid name carrying the
target's extension (`os.path.join(temp_dir, str(uuid.uuid4()) +
file_extension)`); the `shutil.copy2` call itself is filesystem I/O and
only the produced path is modelled. -/
def create_temporary_copy (temp_dir uuid path : String) : String :=
  temp_dir ++ "/" ++ uuid ++ (splitext path).2

/-- The start index of `Path.suffix` within a file name, when the name
has a suffix (`pathlib`: the last `.` at a position `i` with
`0 < i < len(name) - 1`). -/
def name_suffix_start (name : String) : Option Nat :=
  let l := name.data
  let i := rfindChar '.' l
  if 0 < i ∧ i < (l.length : Int) - 1 then some i.toNat else none

/-- `p.with_suffix("")` applied to a file name: drop the suffix if the
name has one. -/
def strip_one_suffix (name : String) : String :=
  match name_suffix_start name with
  | some i => ⟨name.data.take i⟩
  | none => name

/-- Fuelled worker for `remove_all_suffixes_name` (each iteration strips
at least one character, so the name's length is always enough fuel). -/
def removeAllSuffixesFuel : Nat → String → String
  | 0, name => name
  | fuel + 1, name =>
    let n' := strip_one_suffix name
    if n'.length < name.length then removeAllSuffixesFuel fuel n' else n'

/-- The `remove_all_suffixes` loop of `relatively_eq` (lines 301-305),
acting on a file name: repeatedly drop the final suffix until none is
left. -/
def remove_all_suffixes_name (name : String) : String :=
  removeAllSuffixesFuel name.length name

/-- `child.relative_to(parent)` for the paths produced by `rglob` (the
parent's components are a prefix of the child's). -/
def relative_to (child parent : PyPath) : List String :=
  child.segments.drop parent.segments.length

/-- `remove_all_suffixes` applied to a relative path: `with_suffix` only
rewrites the final component. -/
def remove_all_suffixes_rel (segs : List String) : List String :=
  match segs.getLast? with
  | none => segs
  | some last => segs.dropLast ++ [remove_all_suffixes_name last]

/-- `relatively_eq` from `test.py` (lines 300-309). -/
def relatively_eq (parent1 child1 parent2 child2 : PyPath) : Bool :=
  remove_all_suffixes_rel (relative_to child1 parent1)
    == remove_all_suffixes_rel (relative_to child2 parent2)

/-- `get_config_filenames` from `test.py` (lines 312-322).  The
filesystem is passed as data: whether the root is a regular file, and the
list of paths produced by `original_config.rglob("*")`.  The
`is_config_suffix` predicate is imported from the repository's `util`
module (not under `src/`), so it is taken as a parameter. -/
def get_config_filenames (is_config_suffix : PyPath → Bool)
    (original_config : PyPath) (original_config_is_file : Bool)
    (rglob : List PyPath) : List PyPath :=
  if original_config_is_file then [original_config]
  else
    rglob.filter (fun config =>
      is_config_suffix config
      && !(pyStartsWith config.name ".")
      && !(pyStartsWith config.parentName "."))

/-- `target_matches_config` from `test.py` (lines 339-355).  The suffix
predicates come from the `util` module (not under `src/`) and are
parameters; `target` carries its `is_file()` answer. -/
def target_matches_config
    (is_config_test_suffix is_config_suffix is_config_fixtest_suffix : PyPath → Bool)
    (original_target_is_file : Bool) (original_target original_config : PyPath)
    (target : PyPath × Bool) (config : PyPath) : Bool :=
  let correct_suffix :=
    (is_config_test_suffix target.1 || !is_config_suffix target.1)
    && !is_config_fixtest_suffix target.1
  (original_target_is_file
    || relatively_eq original_target target.1 original_config config)
  && target.2 && correct_suffix

/-- `get_config_test_filenames` from `test.py` (lines 325-360).  The two
possible `rglob` enumerations (of `original_target.parent` and of
`original_target`) are passed as data, each entry carrying its
`is_file()` answer. -/
def get_config_test_filenames
    (is_config_test_suffix is_config_suffix is_config_fixtest_suffix : PyPath → Bool)
    (original_config : PyPath) (original_config_is_file : Bool)
    (configs : List PyPath)
    (original_target : PyPath) (original_target_is_file : Bool)
    (parent_rglob target_rglob : List (PyPath × Bool)) :
    List (PyPath × List PyPath) :=
  if original_config_is_file && original_target_is_file then
    [(original_config, [original_target])]
  else
    let targets := if original_target_is_file then parent_rglob else target_rglob
    configs.map (fun config =>
      (config,
        (targets.filter (fun target =>
          target_matches_config is_config_test_suffix is_config_suffix
            is_config_fixtest_suffix original_target_is_file
            original_target original_config target config)).map (fun t => t.1)))

/-! ## Fix verification pipeline and report builder
(`semgrep/test.py` lines 459-586) -/

/-- `passed_test_filenames` from `generate_test_results` (lines 505-511):
every target file name whose expected and reported line lists coincide in
some verdict.  `tested` maps each config to its flattened
`matches_by_check_id`. -/
def passed_test_filenames
    (tested : List (String × List (String × String × List Nat × List Nat))) :
    List String :=
  tested.flatMap (fun cm =>
    (cm.2.filter (fun e => e.2.2.1 == e.2.2.2)).map (fun e => e.2.1))

/-- `fixtest_filenames` from `generate_test_results` (lines 485-492): the
comprehension rebuilds `config_fixtest_filenames` unchanged (the filter
by `passed_test_filenames` is present only as a comment in the source). -/
def fixtest_filenames
    (config_fixtest_filenames : List (String × List (String × String))) :
    List (String × List (String × String)) :=
  config_fixtest_filenames.map (fun c => (c.1, c.2.map (fun tf => tf)))

/-- `config_with_fixtests` (line 494): the configs whose (target, fixtest)
pair list is non-empty.  The `partition` helper is imported from the
repository's `util` module (not under `src/`); modelled from the spec as
splitting by the predicate, of which only the satisfying side is used
here. -/
def config_with_fixtests (ff : List (String × List (String × String))) :
    List (String × List (String × String)) :=
  ff.filter (fun c => !c.2.isEmpty)

/-- `configs_with_fixtests` (lines 512-519): the same pairs filtered down
to targets appearing in `passed_test_filenames`.  In the source this
value is computed but never read afterwards (the temp-copy and diff
stages iterate `config_with_fixtests` instead). -/
def configs_with_fixtests (passed : List String)
    (cwf : List (String × List (String × String))) :
    List (String × List (String × String)) :=
  cwf.map (fun c => (c.1, c.2.filter (fun tf => passed.contains tf.1)))

/-- The set of targets for which a temporary copy is created and later
diffed (`temp_copies`, lines 522-526): every target of every config in
`config_with_fixtests`, with no filtering by verdicts. -/
def temp_copies_targets (cwf : List (String × List (String × String))) :
    List String :=
  cwf.flatMap (fun c => c.2.map (fun tf => tf.1))

/-- The comparison-and-cleanup loop of lines 554-566, embedded as a state
transformer on the set of existing temporary files.  Each item is
`(target, tempcopy, comparison outcome)` where the outcome stands for
`fixed_file_comparison(fixtest, tempcopy)`: `Except.ok diff` when the
comparison returns and `Except.error` when it raises (e.g. an unreadable
file).  On success the result is recorded and `os.remove(tempcopy)` runs;
on an exception the loop aborts and no further `os.remove` runs (there is
no `try/finally` in the source).  Returns (remaining files, recorded
`fixtest_results_output` entries, whether an exception escaped). -/
def fixtest_loop :
    List (String × String × Except String (List String)) → List String →
    List String × List (String × Bool) × Bool
  | [], fs => (fs, [], false)
  | item :: rest, fs =>
    match item.2.2 with
    | .error _ => (fs, [], true)
    | .ok filediff =>
      let fs1 := fs.erase item.2.1
      let r := fixtest_loop rest fs1
      (r.1, (item.1, filediff.isEmpty) :: r.2.1, r.2.2)

/-- `config_with_errors` (line 459) reduced to the config names: the
results of phase 1 whose error slot is set.  (`partition` comes from the
`util` module, not under `src/`; modelled from the spec as splitting by
the predicate.) -/
def config_with_errors_output (results : List (String × Option String × JsonOut)) :
    List String :=
  (results.filter (fun r => r.2.1.isSome)).map (fun r => r.1)

/-- `any_failures` (lines 577-581): some check of some config's
`results_output` entry has `passed = false`. -/
def any_failures (results_output : List (String × List (String × Bool))) : Bool :=
  results_output.any (fun fr => fr.2.any (fun c => !c.2))

/-- The exit code computation of lines 576-582:
`int(strict_error or any_failures)`.  `fixtest_results_output` is in
scope there but is not consulted. -/
def exit_code (strict : Bool) (cweo : List String)
    (results_output : List (String × List (String × Bool)))
    (fixtest_results_output : List (String × Bool)) : Nat :=
  if (!cweo.isEmpty && strict) || any_failures results_output then 1 else 0

/-- The process exit: both the JSON branch (line 586) and the
human-readable tail (line 654) call `sys.exit(exit_code)` with the same
computed value. -/
def final_exit_code (json_output : Bool) (strict : Bool) (cweo : List String)
    (results_output : List (String × List (String × Bool)))
    (fixtest_results_output : List (String × Bool)) : Nat :=
  if json_output then exit_code strict cweo results_output fixtest_results_output
  else exit_code strict cweo results_output fixtest_results_output

/-! ## Helper lemmas about the triple-encoded dictionaries -/

theorem mem_linesOf {T : List (String × String × Nat)} {f c : String} {n : Nat} :
    n ∈ linesOf T f c ↔ (f, c, n) ∈ T := by
  simp only [linesOf, List.mem_map, List.mem_filter, Bool.and_eq_true, beq_iff_eq]
  constructor
  · rintro ⟨⟨a, b, m⟩, ⟨ht, h1, h2⟩, h3⟩
    simp only at h1 h2 h3
    subst h1; subst h2; subst h3
    exact ht
  · intro h
    exact ⟨(f, c, n), ⟨h, rfl, rfl⟩, rfl⟩

theorem linesOf_ne_nil {T : List (String × String × Nat)} {f c : String} :
    linesOf T f c ≠ [] ↔ ∃ n, (f, c, n) ∈ T := by
  rw [Ne, List.eq_nil_iff_forall_not_mem]
  push_neg
  simp only [mem_linesOf]

theorem mem_fileKeys {T : List (String × String × Nat)} {f c : String} :
    c ∈ fileKeys T f ↔ ∃ n, (f, c, n) ∈ T := by
  simp only [fileKeys, List.mem_dedup, List.mem_map, List.mem_filter, beq_iff_eq]
  constructor
  · rintro ⟨⟨a, b, m⟩, ⟨ht, h1⟩, h2⟩
    simp only at h1 h2
    subst h1; subst h2
    exact ⟨m, ht⟩
  · rintro ⟨n, hn⟩
    exact ⟨(f, c, n), ⟨hn, rfl⟩, rfl⟩

theorem mem_allFiles {T : List (String × String × Nat)} {f : String} :
    f ∈ allFiles T ↔ ∃ c n, (f, c, n) ∈ T := by
  simp only [allFiles, List.mem_dedup, List.mem_map]
  constructor
  · rintro ⟨⟨a, b, m⟩, ht, h1⟩
    simp only at h1
    subst h1
    exact ⟨b, m, ht⟩
  · rintro ⟨c, n, hn⟩
    exact ⟨(f, c, n), hn, rfl⟩

theorem setEqL_iff {a b : List String} :
    setEqL a b = true ↔ (∀ x, x ∈ a ↔ x ∈ b) := by
  simp only [setEqL, Bool.and_eq_true, List.all_eq_true]
  constructor
  · rintro ⟨h1, h2⟩ x
    exact ⟨fun hx => by simpa using h1 x hx, fun hx => by simpa using h2 x hx⟩
  · intro h
    exact ⟨fun x hx => by simpa using (h x).1 hx, fun x hx => by simpa using (h x).2 hx⟩

theorem mem_sortNat {l : List Nat} {n : Nat} : n ∈ sortNat l ↔ n ∈ l :=
  List.mem_insertionSort _

theorem sortNat_sorted (l : List Nat) : (sortNat l).Sorted (fun a b => a ≤ b) :=
  List.sorted_insertionSort _ l

theorem sortNat_nodup {l : List Nat} (h : l.Nodup) : (sortNat l).Nodup :=
  ((List.perm_insertionSort _ l).nodup_iff).2 h

/-- Two sorted duplicate-free lists of naturals are equal iff they have
the same members. -/
theorem sorted_nodup_eq_iff {a b : List Nat}
    (sa : a.Sorted (fun x y => x ≤ y)) (sb : b.Sorted (fun x y => x ≤ y))
    (na : a.Nodup) (nb : b.Nodup) :
    a = b ↔ (∀ x, x ∈ a ↔ x ∈ b) := by
  constructor
  · rintro rfl x; rfl
  · intro h
    exact List.eq_of_perm_of_sorted ((List.perm_ext_iff_of_nodup na nb).2 h) sa sb

theorem mem_verdict_expected {ruleidT todoOkT todoRuleidT reportedT : List (String × String × Nat)}
    {f c : String} {n : Nat} :
    n ∈ (verdict_pair ruleidT todoOkT todoRuleidT reportedT f c).1 ↔
      (n ∈ linesOf ruleidT f c ∧ n ∉ linesOf todoRuleidT f c ∧ n ∉ linesOf todoOkT f c) := by
  simp only [verdict_pair, mem_sortNat, List.mem_filter, List.mem_dedup, Bool.not_eq_true',
    List.elem_eq_mem, decide_eq_false_iff_not, and_assoc]

theorem mem_verdict_reported {ruleidT todoOkT todoRuleidT reportedT : List (String × String × Nat)}
    {f c : String} {n : Nat} :
    n ∈ (verdict_pair ruleidT todoOkT todoRuleidT reportedT f c).2 ↔
      (n ∈ linesOf reportedT f c ∧ n ∉ linesOf todoOkT f c ∧ n ∉ linesOf todoRuleidT f c) := by
  simp only [verdict_pair, mem_sortNat, List.mem_filter, List.mem_dedup, Bool.not_eq_true',
    List.elem_eq_mem, decide_eq_false_iff_not, and_assoc]

theorem verdict_expected_nodup (ruleidT todoOkT todoRuleidT reportedT : List (String × String × Nat))
    (f c : String) :
    (verdict_pair ruleidT todoOkT todoRuleidT reportedT f c).1.Nodup := by
  exact sortNat_nodup ((((linesOf ruleidT f c).nodup_dedup).filter _).filter _)

theorem verdict_reported_nodup (ruleidT todoOkT todoRuleidT reportedT : List (String × String × Nat))
    (f c : String) :
    (verdict_pair ruleidT todoOkT todoRuleidT reportedT f c).2.Nodup := by
  exact sortNat_nodup ((((linesOf reportedT f c).nodup_dedup).filter _).filter _)

theorem verdict_expected_sorted (ruleidT todoOkT todoRuleidT reportedT : List (String × String × Nat))
    (f c : String) :
    (verdict_pair ruleidT todoOkT todoRuleidT reportedT f c).1.Sorted (fun a b => a ≤ b) :=
  sortNat_sorted _

theorem verdict_reported_sorted (ruleidT todoOkT todoRuleidT reportedT : List (String × String × Nat))
    (f c : String) :
    (verdict_pair ruleidT todoOkT todoRuleidT reportedT f c).2.Sorted (fun a b => a ≤ b) :=
  sortNat_sorted _

/-- Characterization of membership in the reconciler's successful
output. -/
theorem mem_reconciler_out {results : List ScanResult} {files : List (String × String)}
    {out : List (String × String × List Nat × List Nat)}
    (h : get_expected_and_reported_lines results files = .ok out)
    (c f : String) (e r : List Nat) :
    (c, f, (e, r)) ∈ out ↔
      ((∃ n, (f, c, n) ∈ ruleid_triples files ∨ (f, c, n) ∈ reported_triples results) ∧
        (e, r) = verdict_pair (ruleid_triples files) (todo_ok_triples files)
          (todo_ruleid_triples files) (reported_triples results) f c) := by
  unfold get_expected_and_reported_lines at h
  by_cases hm : rule_id_mismatch (reported_triples results) (ruleid_triples files)
      (ok_triples files) = true
  · simp [hm] at h
  · simp only [Bool.not_eq_true] at hm
    simp only [hm, Bool.false_eq_true, if_false, Except.ok.injEq] at h
    subst h
    simp only [List.mem_flatMap, List.mem_map]
    constructor
    · rintro ⟨f', hf', c', hc', heq⟩
      simp only [Prod.mk.injEq] at heq
      obtain ⟨rfl, rfl, hvp⟩ := heq
      refine ⟨?_, hvp.symm⟩
      rw [List.mem_dedup, List.mem_append, mem_fileKeys, mem_fileKeys] at hc'
      rcases hc' with ⟨n, hn⟩ | ⟨n, hn⟩
      · exact ⟨n, Or.inl hn⟩
      · exact ⟨n, Or.inr hn⟩
    · rintro ⟨⟨n, hn⟩, hvp⟩
      refine ⟨f, ?_, c, ?_, by rw [← hvp]⟩
      · rw [mem_allFiles]
        exact ⟨c, n, List.mem_append.2 (hn.imp id id)⟩
      · rw [List.mem_dedup, List.mem_append, mem_fileKeys, mem_fileKeys]
        exact hn.imp (fun h => ⟨n, h⟩) (fun h => ⟨n, h⟩)

/-! ## Claim theorems -/

/-- C1: the claim states that a target participates in fix verification
(temp copy, autofix invocation, diff) only if every Verdict involving it
passed.  Evaluating the embedded pipeline at a target whose only Verdict
fails (expected `[3]`, reported `[4]`) shows the opposite: the target is
not in `passed_test_filenames`, yet it is among the targets that get a
temporary copy and a diff, because the source builds `temp_copies` from
the unfiltered `config_with_fixtests`; the filtered
`configs_with_fixtests` (which would have pruned the target, as the third
conjunct shows) is computed but never used. -/
theorem c1_failing_target_still_enters_fix_verification :
    passed_test_filenames [("rules.yaml", [("r", "t.py", ([3], [4]))])] = [] ∧
    temp_copies_targets (config_with_fixtests (fixtest_filenames
      [("rules.yaml", [("t.py", "t.fixed.py")])])) = ["t.py"] ∧
    configs_with_fixtests
      (passed_test_filenames [("rules.yaml", [("r", "t.py", ([3], [4]))])])
      (config_with_fixtests (fixtest_filenames [("rules.yaml", [("t.py", "t.fixed.py")])]))
      = [("rules.yaml", [])] :=
  ⟨rfl, rfl, rfl⟩

/-- C2 counterexample: the claim quantifies over every (file, rule) key
appearing in "the annotation maps or the Scanner output", but a key that
appears only in the todo-ok map (here `("f", "r")`, with the scanner
reporting nothing) receives no Verdict at all: the reconciler's key set
is the union of the ruleid map and the scanner output only. -/
theorem c2_counterexample_todook_key_gets_no_verdict :
    linesOf (todo_ok_triples [("f", "# todook:r\nx")]) "f" "r" = [2] ∧
    get_expected_and_reported_lines [] [("f", "# todook:r\nx")] = .ok [] :=
  ⟨by decide, by rfl⟩

/-- C2 (amended: the key set is the union of the ruleid/todoruleid
annotation map and the Scanner output, not of all four annotation maps):
for every key of that union the reconciler produces exactly one verdict
entry whose expected side is the set of ruleid-annotated lines minus the
todo-ruleid lines minus the todo-ok lines, whose reported side is the set
of scanner-reported lines minus the todo-ok lines minus the todo-ruleid
lines (duplicates collapsed), and the verdict passes iff the two sorted
lists are equal, equivalently iff the two sets coincide; in particular a
todook-annotated line whose finding is actually reported is removed from
both sides. -/
theorem c2_reconciler_formula :
    ∀ (results : List ScanResult) (files : List (String × String))
      (out : List (String × String × List Nat × List Nat)),
      get_expected_and_reported_lines results files = .ok out →
      ((∀ c f, (∃ e r, (c, f, (e, r)) ∈ out) ↔
          (linesOf (ruleid_triples files) f c ≠ [] ∨
            linesOf (reported_triples results) f c ≠ [])) ∧
       (∀ c f e r, (c, f, (e, r)) ∈ out →
          ((∀ n, n ∈ e ↔ (n ∈ linesOf (ruleid_triples files) f c ∧
              n ∉ linesOf (todo_ruleid_triples files) f c ∧
              n ∉ linesOf (todo_ok_triples files) f c)) ∧
           (∀ n, n ∈ r ↔ (n ∈ linesOf (reported_triples results) f c ∧
              n ∉ linesOf (todo_ok_triples files) f c ∧
              n ∉ linesOf (todo_ruleid_triples files) f c)) ∧
           (e = r ↔ (∀ n, n ∈ e ↔ n ∈ r)) ∧
           (checkid_passed [(f, (e, r))] = true ↔ e = r)))) := by
  intro results files out h
  constructor
  · intro c f
    constructor
    · rintro ⟨e, r, hm⟩
      obtain ⟨⟨n, hn⟩, _⟩ := (mem_reconciler_out h c f e r).1 hm
      rcases hn with h1 | h2
      · exact Or.inl (linesOf_ne_nil.2 ⟨n, h1⟩)
      · exact Or.inr (linesOf_ne_nil.2 ⟨n, h2⟩)
    · intro hne
      refine ⟨_, _, (mem_reconciler_out h c f _ _).2 ⟨?_, Prod.mk.eta⟩⟩
      rcases hne with h1 | h2
      · obtain ⟨n, hn⟩ := linesOf_ne_nil.1 h1
        exact ⟨n, Or.inl hn⟩
      · obtain ⟨n, hn⟩ := linesOf_ne_nil.1 h2
        exact ⟨n, Or.inr hn⟩
  · intro c f e r hm
    obtain ⟨_, hvp⟩ := (mem_reconciler_out h c f e r).1 hm
    have he : e = (verdict_pair (ruleid_triples files) (todo_ok_triples files)
        (todo_ruleid_triples files) (reported_triples results) f c).1 :=
      congrArg Prod.fst hvp
    have hr : r = (verdict_pair (ruleid_triples files) (todo_ok_triples files)
        (todo_ruleid_triples files) (reported_triples results) f c).2 :=
      congrArg Prod.snd hvp
    refine ⟨fun n => by rw [he]; exact mem_verdict_expected,
            fun n => by rw [hr]; exact mem_verdict_reported, ?_, ?_⟩
    · constructor
      · rintro rfl n; rfl
      · intro hext
        rw [he, hr]
        rw [he, hr] at hext
        exact (sorted_nodup_eq_iff (verdict_expected_sorted ..) (verdict_reported_sorted ..)
          (verdict_expected_nodup ..) (verdict_reported_nodup ..)).2 hext
    · simp [checkid_passed]

/-- C2 witness: the P4 scenario.  File `f` has `# ruleid:r` before line 2
and `# todook:r` before line 4; the scanner reports rule `r` at lines 2
and 4.  The single verdict entry is `("r", "f", [2], [2])`: the
todook-suppressed reported line 4 is removed from the reported side, line
2 remains on both sides, and the verdict passes. -/
theorem c2_reconciler_formula_witness :
    (∀ n : Nat, n ∈ ([2] : List Nat) ↔
      (n ∈ linesOf (ruleid_triples [("f", "# ruleid:r\nx\n# todook:r\ny")]) "f" "r" ∧
        n ∉ linesOf (todo_ruleid_triples [("f", "# ruleid:r\nx\n# todook:r\ny")]) "f" "r" ∧
        n ∉ linesOf (todo_ok_triples [("f", "# ruleid:r\nx\n# todook:r\ny")]) "f" "r")) ∧
    (∀ n : Nat, n ∈ ([2] : List Nat) ↔
      (n ∈ linesOf (reported_triples [⟨"f", "r", 2⟩, ⟨"f", "r", 4⟩]) "f" "r" ∧
        n ∉ linesOf (todo_ok_triples [("f", "# ruleid:r\nx\n# todook:r\ny")]) "f" "r" ∧
        n ∉ linesOf (todo_ruleid_triples [("f", "# ruleid:r\nx\n# todook:r\ny")]) "f" "r")) ∧
    (([2] : List Nat) = [2] ↔ (∀ n : Nat, n ∈ ([2] : List Nat) ↔ n ∈ ([2] : List Nat))) ∧
    (checkid_passed [("f", ([2], [2]))] = true ↔ ([2] : List Nat) = [2]) :=
  (c2_reconciler_formula [⟨"f", "r", 2⟩, ⟨"f", "r", 4⟩]
      [("f", "# ruleid:r\nx\n# todook:r\ny")]
      [("r", "f", ([2], [2]))] (by rfl)).2 "r" "f" [2] [2] (by simp)

/-- C3 counterexample: file `f` declares `ok:r` and the Scanner reports
nothing at all, so the rule-id set of `f`'s annotations (`{r}`) differs
from the set of ids reported for `f` (empty); the claim says this must
fatally terminate the run before Verdicts, but `check_rule_id_mismatch`
is guarded by `if reported_lines:` and does nothing when the scanner
output is empty — the call returns an ordinary (empty) verdict table. -/
theorem c3_counterexample_no_exit_without_reports :
    setEqL (test_ids (ruleid_triples [("f", "# ok:r\nx")]) (ok_triples [("f", "# ok:r\nx")]) "f")
        (fileKeys (reported_triples []) "f") = false ∧
    get_expected_and_reported_lines [] [("f", "# ok:r\nx")] = .ok [] :=
  ⟨by decide, by rfl⟩

/-- C3 (amended: the check fires only when the Scanner reported at least
one finding, and only for files that carry expect/ok annotations): under
those conditions, any file whose annotation rule-id set differs from its
reported rule-id set makes `get_expected_and_reported_lines` exit with
the distinct failure code `EXIT_FAILURE = 2` before producing any
verdict. -/
theorem c3_mismatch_fatal :
    ∀ (results : List ScanResult) (files : List (String × String)),
      reported_triples results ≠ [] →
      (∃ f, f ∈ test_line_files (ruleid_triples files) (ok_triples files) ∧
        setEqL (test_ids (ruleid_triples files) (ok_triples files) f)
          (fileKeys (reported_triples results) f) = false) →
      get_expected_and_reported_lines results files = .error EXIT_FAILURE ∧
      EXIT_FAILURE = 2 := by
  intro results files hne hex
  obtain ⟨f, hf, hs⟩ := hex
  refine ⟨?_, rfl⟩
  have hm : rule_id_mismatch (reported_triples results) (ruleid_triples files)
      (ok_triples files) = true := by
    unfold rule_id_mismatch
    rw [Bool.and_eq_true]
    constructor
    · simpa [List.isEmpty_iff] using hne
    · rw [List.any_eq_true]
      exact ⟨f, hf, by simp [hs]⟩
  simp only [get_expected_and_reported_lines, hm, if_true]

/-- C3 witness: with one finding reported for an unrelated file `g`, the
`ok:r` annotation of file `f` (for which nothing is reported) makes the
run exit fatally with code 2. -/
theorem c3_mismatch_fatal_witness :
    get_expected_and_reported_lines [⟨"g", "s", 1⟩] [("f", "# ok:r\nx")]
      = .error EXIT_FAILURE ∧ EXIT_FAILURE = 2 :=
  c3_mismatch_fatal [⟨"g", "s", 1⟩] [("f", "# ok:r\nx")] (by decide)
    ⟨"f", by decide, by decide⟩

/-- C4 counterexample: a strict run with a config invocation error and no
detection failure.  The claim says such a strict/config-error failure
exits with code 2; the source computes
`int(strict_error or any_failures)`, which is 1 (the code
`EXIT_FAILURE = 2` is used only by the rule-id mismatch exit). -/
theorem c4_counterexample_strict_error_exit_is_one :
    exit_code true ["rules.yaml"] [("f", [("r", true)])] [] = 1 ∧
    (1 : Nat) ≠ EXIT_FAILURE :=
  ⟨rfl, by decide⟩

/-- C4 (amended: the exit code is 0 on success and 1 on any failure; 2 is
used only by the rule-id-mismatch fatal exit): the process exit code is
the same in JSON and human-readable mode, does not depend on the fix-test
results, is always 0 or 1, and is nonzero exactly when some detection
test failed or (strict mode is on and some config produced an invocation
error). -/
theorem c4_exit_code_semantics :
    ∀ (strict json_output : Bool) (cweo : List String)
      (ro : List (String × List (String × Bool))) (ft ft' : List (String × Bool)),
      final_exit_code json_output strict cweo ro ft = exit_code strict cweo ro ft ∧
      exit_code strict cweo ro ft = exit_code strict cweo ro ft' ∧
      (exit_code strict cweo ro ft = 0 ∨ exit_code strict cweo ro ft = 1) ∧
      (exit_code strict cweo ro ft ≠ 0 ↔
        (any_failures ro = true ∨ (cweo ≠ [] ∧ strict = true))) := by
  intro strict json_output cweo ro ft ft'
  refine ⟨by cases json_output <;> rfl, rfl, ?_, ?_⟩
  · unfold exit_code
    by_cases hb : ((!cweo.isEmpty && strict) || any_failures ro) = true
    · rw [if_pos hb]; right; rfl
    · rw [if_neg hb]; left; rfl
  · have hcond : ((!cweo.isEmpty && strict) || any_failures ro) = true ↔
        (any_failures ro = true ∨ (cweo ≠ [] ∧ strict = true)) := by
      rw [Bool.or_eq_true, Bool.and_eq_true, Bool.not_eq_true', List.isEmpty_eq_false]
      tauto
    unfold exit_code
    by_cases hb : ((!cweo.isEmpty && strict) || any_failures ro) = true
    · rw [if_pos hb]
      simp only [ne_eq, one_ne_zero, not_false_eq_true, true_iff]
      exact hcond.1 hb
    · rw [if_neg hb]
      simp only [ne_eq, not_true_eq_false, false_iff]
      rw [← hcond]
      simpa using hb

/-- C5 counterexample: `# ruleid:a:b` is a candidate annotation line
(marker present, colon present).  Under the claim's parse ("split on the
first `:`, take the remainder") it would record the id `a:b`; the source
instead does `_, rules_text = line.strip().split(":")`, which raises
`ValueError` on the second colon, so the line is skipped and contributes
nothing — while extraction continues with the later `# ruleid:c` line. -/
theorem c5_counterexample_two_colons_skipped :
    line_has_rule "# ruleid:a:b" = true ∧
    pyContains "# ruleid:a:b" ":" = true ∧
    normalize_rule_ids "# ruleid:a:b" = .error () ∧
    normalize_rule_ids_first_colon "# ruleid:a:b" = ["a:b"] ∧
    ruleid_triples [("f", "# ruleid:a:b\nx\n# ruleid:c\ny")] = [("f", "c", 4)] :=
  ⟨rfl, rfl, by rfl, by rfl, by rfl⟩

/-- C5 (amended: the parse requires EXACTLY ONE colon in the stripped
line — a candidate line with two or more colons is a parse failure —
rather than splitting at the first colon): parsing succeeds iff the
stripped line contains exactly one `:`; in that case the result agrees
with the spec's first-colon description (remainder split on `,`, pieces
trimmed, closing tokens `-->` and `*)` stripped, empties dropped); and a
parse failure skips only that line: extraction over the other lines is
unchanged (replacing the failing line by an empty line gives the same
extraction result). -/
theorem c5_parse_and_skip :
    ∀ line : String,
      ((∃ ids, normalize_rule_ids line = .ok ids) ↔
        (trimChars line.data).count ':' = 1) ∧
      ((trimChars line.data).count ':' = 1 →
        normalize_rule_ids line = .ok (normalize_rule_ids_first_colon line)) ∧
      (∀ (keep : String → Bool) (name : String) (pre post : List String),
        normalize_rule_ids line = .error () →
        extract_lines keep name (pre ++ line :: post)
          = extract_lines keep name (pre ++ "" :: post)) := by
  intro line
  have hl := splitChar_length ':' (trimChars line.data)
  refine ⟨?_, ?_, ?_⟩
  · unfold normalize_rule_ids
    rcases hsp : splitChar ':' (trimChars line.data) with _ | ⟨a, _ | ⟨b, _ | ⟨c, t⟩⟩⟩
    · rw [hsp] at hl
      exact absurd hl (by simp)
    · rw [hsp] at hl
      simp only [List.length_cons, List.length_nil] at hl
      constructor
      · rintro ⟨ids, hids⟩
        exact absurd hids (by simp)
      · intro hc
        omega
    · rw [hsp] at hl
      simp only [List.length_cons, List.length_nil] at hl
      constructor
      · intro _
        omega
      · intro _
        exact ⟨_, rfl⟩
    · rw [hsp] at hl
      simp only [List.length_cons] at hl
      constructor
      · rintro ⟨ids, hids⟩
        exact absurd hids (by simp)
      · intro hc
        omega
  · intro hc
    unfold normalize_rule_ids normalize_rule_ids_first_colon
    rcases hsp : splitChar ':' (trimChars line.data) with _ | ⟨a, _ | ⟨b, _ | ⟨c, t⟩⟩⟩
    · rw [hsp] at hl
      exact absurd hl (by simp)
    · rw [hsp] at hl
      simp only [List.length_cons, List.length_nil] at hl
      omega
    · simp [List.intercalate]
    · rw [hsp] at hl
      simp only [List.length_cons] at hl
      omega
  · intro keep name pre post herr
    unfold extract_lines
    rw [List.enum_append, List.enum_append, List.flatMap_append, List.flatMap_append,
      List.enumFrom_cons, List.enumFrom_cons, List.flatMap_cons, List.flatMap_cons]
    have h1 : line_contribution keep name pre.length line = [] := by
      unfold line_contribution
      cases hp : has_parseable_rule_id line
      · simp
      · simp [herr]
    have h2 : line_contribution keep name pre.length "" = [] := by
      unfold line_contribution
      rw [show has_parseable_rule_id "" = false from rfl]
      simp
    rw [h1, h2]

/-- C5 witness: a one-colon line parses as the first-colon description,
and the two-colon line `# ruleid:a:b` is skipped without affecting the
extraction of the surrounding lines. -/
theorem c5_parse_and_skip_witness :
    normalize_rule_ids "# ruleid:c" = .ok (normalize_rule_ids_first_colon "# ruleid:c") ∧
    extract_lines keep_ruleid "f" ([] ++ "# ruleid:a:b" :: ["# ruleid:c"])
      = extract_lines keep_ruleid "f" ([] ++ "" :: ["# ruleid:c"]) :=
  ⟨(c5_parse_and_skip "# ruleid:c").2.1 (by decide),
   (c5_parse_and_skip "# ruleid:a:b").2.2 keep_ruleid "f" [] ["# ruleid:c"] (by rfl)⟩

/-- C6: an annotation line at 0-based index `i` that parses to the rule
set `ids` records each id at 1-based line `i + 2`: a `ruleid` line in the
expected map, an `ok` line in the ok map, a `todook` line in the todo-ok
map, and a `todoruleid` line in the expected, ok, and todo-ruleid maps
simultaneously. -/
theorem c6_annotation_kinds :
    ∀ (name content line : String) (i : Nat) (ids : List String),
      (fileLines content).get? i = some line →
      pyContains line ":" = true →
      normalize_rule_ids line = .ok ids →
      ∀ r ∈ ids,
        ((line_has_rule line = true ∨ line_has_todo_rule line = true) →
          (name, r, i + 2) ∈ ruleid_triples [(name, content)]) ∧
        ((line_has_ok line = true ∨ line_has_todo_rule line = true) →
          (name, r, i + 2) ∈ ok_triples [(name, content)]) ∧
        (line_has_todo_ok line = true →
          (name, r, i + 2) ∈ todo_ok_triples [(name, content)]) ∧
        (line_has_todo_rule line = true →
          ((name, r, i + 2) ∈ ruleid_triples [(name, content)] ∧
           (name, r, i + 2) ∈ ok_triples [(name, content)] ∧
           (name, r, i + 2) ∈ todo_ruleid_triples [(name, content)])) := by
  intro name content line i ids hget hcolon hids r hr
  have hmem : ∀ keep : String → Bool, keep line = true →
      (line_has_rule line || line_has_todo_rule line
        || line_has_ok line || line_has_todo_ok line) = true →
      (name, r, i + 2) ∈ extract_kind keep [(name, content)] := by
    intro keep hkeep hor
    have hp : has_parseable_rule_id line = true := by
      unfold has_parseable_rule_id
      rw [Bool.and_eq_true]
      exact ⟨hor, hcolon⟩
    unfold extract_kind
    rw [List.mem_flatMap]
    refine ⟨(name, content), List.mem_singleton.mpr rfl, ?_⟩
    unfold extract_lines
    rw [List.mem_flatMap]
    refine ⟨(i, line), ?_, ?_⟩
    · rw [List.mk_mem_enum_iff_getElem?, ← List.get?_eq_getElem?]
      exact hget
    · unfold line_contribution
      rw [hp, if_pos rfl, hids, hkeep]
      exact List.mem_map.mpr ⟨r, hr, rfl⟩
  refine ⟨?_, ?_, ?_, ?_⟩
  · intro h
    rcases h with h | h
    · exact hmem keep_ruleid (by simp [keep_ruleid, h]) (by simp [h])
    · exact hmem keep_ruleid (by simp [keep_ruleid, h]) (by simp [h])
  · intro h
    rcases h with h | h
    · exact hmem keep_ok (by simp [keep_ok, h]) (by simp [h])
    · exact hmem keep_ok (by simp [keep_ok, h]) (by simp [h])
  · intro h
    exact hmem keep_todo_ok (by simp [keep_todo_ok, h]) (by simp [h])
  · intro h
    exact ⟨hmem keep_ruleid (by simp [keep_ruleid, h]) (by simp [h]),
           hmem keep_ok (by simp [keep_ok, h]) (by simp [h]),
           hmem keep_todo_ruleid (by simp [keep_todo_ruleid, h]) (by simp [h])⟩

/-- C6 witness: `# ruleid:foo, bar` at index 0 records `foo` and `bar` at
line 2 in the expected map; `# todoruleid:baz` at index 0 records `baz`
at line 2 in the expected, ok, and todo-ruleid maps simultaneously. -/
theorem c6_annotation_kinds_witness :
    ("f", "foo", 2) ∈ ruleid_triples [("f", "# ruleid:foo, bar")] ∧
    ("f", "bar", 2) ∈ ruleid_triples [("f", "# ruleid:foo, bar")] ∧
    (("f", "baz", 2) ∈ ruleid_triples [("f", "# todoruleid:baz")] ∧
     ("f", "baz", 2) ∈ ok_triples [("f", "# todoruleid:baz")] ∧
     ("f", "baz", 2) ∈ todo_ruleid_triples [("f", "# todoruleid:baz")]) :=
  ⟨(c6_annotation_kinds "f" "# ruleid:foo, bar" "# ruleid:foo, bar" 0 ["foo", "bar"]
      rfl rfl (by rfl) "foo" (by decide)).1 (Or.inl (by rfl)),
   (c6_annotation_kinds "f" "# ruleid:foo, bar" "# ruleid:foo, bar" 0 ["foo", "bar"]
      rfl rfl (by rfl) "bar" (by decide)).1 (Or.inl (by rfl)),
   (c6_annotation_kinds "f" "# todoruleid:baz" "# todoruleid:baz" 0 ["baz"]
      rfl rfl (by rfl) "baz" (by decide)).2.2.2 (by rfl)⟩

/-- C7: for every (config, target list) pair in a pool run, the wrapper
never lets an engine exception escape: the i-th pool result is exactly
the wrapper applied to the i-th input (so one invocation's outcome cannot
influence a sibling's result or the aggregation), an engine exception is
returned as data `(config, str(error), {})` with the error as a plain
string and an empty output, and a successful invocation returns
`(config, None, output)`. -/
theorem c7_invocation_isolation :
    ∀ (invoke : String → List String → Except PyExn JsonOut)
      (inputs : List (String × List String)) (i : Nat)
      (config : String) (targets : List String),
      inputs.get? i = some (config, targets) →
      ((run_scan_pool invoke inputs).get? i
          = some (invoke_semgrep_multi invoke config targets) ∧
       (∀ e, invoke config targets = .error e →
          (run_scan_pool invoke inputs).get? i
            = some (config, some e.msg, JsonOut.empty)) ∧
       (∀ output, invoke config targets = .ok output →
          (run_scan_pool invoke inputs).get? i = some (config, none, output))) := by
  intro invoke inputs i config targets h
  have hbase : (run_scan_pool invoke inputs).get? i
      = some (invoke_semgrep_multi invoke config targets) := by
    unfold run_scan_pool
    rw [List.get?_map, h]
    rfl
  refine ⟨hbase, fun e he => ?_, fun output ho => ?_⟩
  · rw [hbase]
    unfold invoke_semgrep_multi
    rw [he]
  · rw [hbase]
    unfold invoke_semgrep_multi
    rw [ho]

/-- C7 witness: a failing engine run on the only input yields, at index
0, the config name with the stringified error and empty output. -/
theorem c7_invocation_isolation_witness :
    (run_scan_pool (fun _ _ => .error ⟨"boom"⟩) [("rules.yaml", ["t.py"])]).get? 0
      = some ("rules.yaml", some "boom", JsonOut.empty) :=
  (c7_invocation_isolation (fun _ _ => .error ⟨"boom"⟩) [("rules.yaml", ["t.py"])] 0
    "rules.yaml" ["t.py"] rfl).2.1 ⟨"boom"⟩ rfl

/-- C8 counterexample: the claim says the temporary copy is deleted on
every exit path, including when the comparison itself fails; but the
source has no try/finally around `fixed_file_comparison`, so a raising
comparison propagates out of the loop with the temporary copy still on
disk. -/
theorem c8_counterexample_copy_survives_failed_comparison :
    (fixtest_loop [("t.py", "/tmp/u1.py", .error "IOError")] ["/tmp/u1.py"]).1
      = ["/tmp/u1.py"] ∧
    (fixtest_loop [("t.py", "/tmp/u1.py", .error "IOError")] ["/tmp/u1.py"]).2.2 = true :=
  ⟨rfl, rfl⟩

/-- The comparison loop never creates files: its final filesystem is a
subset of the starting one. -/
theorem fixtest_loop_subset :
    ∀ (items : List (String × String × Except String (List String)))
      (fs : List String), (fixtest_loop items fs).1 ⊆ fs := by
  intro items
  induction items with
  | nil => intro fs x hx; exact hx
  | cons item rest ih =>
    intro fs
    unfold fixtest_loop
    cases h : item.2.2 with
    | error e => simp [h]
    | ok d =>
      simp only [h]
      intro x hx
      exact List.erase_subset _ _ (ih (fs.erase item.2.1) hx)

/-- C8 (amended: deletion happens for the targets whose comparisons all
return — a raising comparison leaves its copy and all later copies
undeleted): when every comparison in the loop returns, every temporary
copy is removed from the filesystem; and the temporary copy's path always
carries the target's final extension (it is some prefix followed by
`splitext(target).ext`). -/
theorem c8_temp_copies_deleted_when_comparisons_return :
    ∀ (items : List (String × String × Except String (List String)))
      (fs : List String),
      fs.Nodup → (∀ it ∈ items, (it.2.2).isOk = true) →
      ((∀ it ∈ items, it.2.1 ∉ (fixtest_loop items fs).1) ∧
       ∀ (temp_dir uuid path : String), ∃ pre,
         create_temporary_copy temp_dir uuid path = pre ++ (splitext path).2) := by
  intro items
  induction items with
  | nil =>
    intro fs _ _
    exact ⟨by simp, fun temp_dir uuid path => ⟨temp_dir ++ "/" ++ uuid, rfl⟩⟩
  | cons item rest ih =>
    intro fs hnd hok
    refine ⟨?_, fun temp_dir uuid path => ⟨temp_dir ++ "/" ++ uuid, rfl⟩⟩
    have hhd : (item.2.2).isOk = true := hok item (List.mem_cons_self ..)
    obtain ⟨d, hd⟩ : ∃ d, item.2.2 = .ok d := by
      cases h : item.2.2 with
      | error e => rw [h] at hhd; cases hhd
      | ok d => exact ⟨d, rfl⟩
    intro it hit
    unfold fixtest_loop
    rw [hd]
    rcases List.mem_cons.1 hit with rfl | hmem
    · intro hx
      have hsub := fixtest_loop_subset rest (fs.erase it.2.1) hx
      exact absurd ((List.Nodup.mem_erase_iff hnd).1 hsub).1 (by simp)
    · exact (ih (fs.erase item.2.1) (hnd.erase _)
        (fun it' h' => hok it' (List.mem_cons_of_mem _ h'))).1 it hmem

/-- C8 witness: with a single successfully compared pair the temporary
copy is gone afterwards, and a concrete temporary copy path ends in the
target's extension. -/
theorem c8_cleanup_witness :
    "/tmp/u1.py" ∉ (fixtest_loop [("t.py", "/tmp/u1.py", Except.ok [])] ["/tmp/u1.py"]).1 ∧
    (∃ pre, create_temporary_copy "/tmp" "u1" "/a/t.py" = pre ++ (splitext "/a/t.py").2) :=
  ⟨(c8_temp_copies_deleted_when_comparisons_return
      [("t.py", "/tmp/u1.py", Except.ok [])] ["/tmp/u1.py"] (by decide)
      (by intro it h; rw [List.mem_singleton] at h; subst h; rfl)).1
      ("t.py", "/tmp/u1.py", Except.ok []) (List.mem_singleton.mpr rfl),
   (c8_temp_copies_deleted_when_comparisons_return [] [] (by decide)
      (by intro it h; cases h)).2 "/tmp" "u1" "/a/t.py"⟩

/-- C9 counterexample: with the config root a directory, a rule-config
file lying under the dot-prefixed directory `.h` at depth two (its
immediate parent `sub` is not dot-prefixed) is returned by
`get_config_filenames`, although the claim requires excluding files
inside dot-prefixed directories at any depth. -/
theorem c9_counterexample_deep_dot_dir_not_excluded :
    get_config_filenames (fun q => ".yaml".data.isSuffixOf q.name.data) ⟨["r"]⟩ false
      [⟨["r", ".h", "sub", "a.yaml"]⟩]
      = [⟨["r", ".h", "sub", "a.yaml"]⟩] ∧
    ".h" ∈ (PyPath.mk ["r", ".h", "sub", "a.yaml"]).segments.dropLast ∧
    pyStartsWith ".h" "." = true :=
  ⟨by rfl, by decide, by rfl⟩

/-- C9 (amended: only the file's own name and its IMMEDIATE parent
directory's name are checked for the dot prefix; deeper dot-prefixed
ancestors do not exclude a file): when the config root is a single file
the result is exactly that root, and otherwise a path is returned iff it
is among the recursive glob results, satisfies the rule-config suffix
predicate, and neither its name nor its immediate parent's name starts
with a dot. -/
theorem c9_config_discovery :
    ∀ (is_config_suffix : PyPath → Bool) (root p : PyPath) (rglob : List PyPath),
      get_config_filenames is_config_suffix root true rglob = [root] ∧
      (p ∈ get_config_filenames is_config_suffix root false rglob ↔
        (p ∈ rglob ∧ is_config_suffix p = true ∧
          pyStartsWith p.name "." = false ∧ pyStartsWith p.parentName "." = false)) := by
  intro suf root p rglob
  refine ⟨rfl, ?_⟩
  simp only [get_config_filenames, Bool.false_eq_true, if_false, List.mem_filter,
    Bool.and_eq_true, Bool.not_eq_true']
  tauto

/-- C10: when the target root is a single file and the config root is a
directory, pairing enumerates the target file's parent directory
recursively and ignores the stripped-relative-path check entirely: the
result does not depend on the target root path, the config root path, or
the target-root glob; every config is paired with the same target list;
and a path is in that list iff it is a regular file of the parent's glob
whose suffix qualifies (test suffix or no config suffix, and not a
fixtest file). -/
theorem c10_single_file_target_pairs_all_configs :
    ∀ (is_test is_config is_fixtest : PyPath → Bool) (configs : List PyPath)
      (oc oc' ot ot' : PyPath) (pr tr tr' : List (PyPath × Bool)) (p : PyPath),
      get_config_test_filenames is_test is_config is_fixtest oc false configs ot true pr tr
        = get_config_test_filenames is_test is_config is_fixtest oc' false configs ot' true pr tr' ∧
      get_config_test_filenames is_test is_config is_fixtest oc false configs ot true pr tr
        = configs.map (fun config => (config,
            (pr.filter (fun t =>
              t.2 && ((is_test t.1 || !is_config t.1) && !is_fixtest t.1))).map
              (fun t => t.1))) ∧
      (p ∈ (pr.filter (fun t =>
              t.2 && ((is_test t.1 || !is_config t.1) && !is_fixtest t.1))).map
              (fun t => t.1) ↔
        ((p, true) ∈ pr ∧ (is_test p = true ∨ is_config p = false) ∧
          is_fixtest p = false)) := by
  intro is_test is_config is_fixtest configs oc oc' ot ot' pr tr tr' p
  have hshape : ∀ (ocx otx : PyPath) (trx : List (PyPath × Bool)),
      get_config_test_filenames is_test is_config is_fixtest ocx false configs otx true pr trx
        = configs.map (fun config => (config,
            (pr.filter (fun t =>
              t.2 && ((is_test t.1 || !is_config t.1) && !is_fixtest t.1))).map
              (fun t => t.1))) := by
    intro ocx otx trx
    unfold get_config_test_filenames target_matches_config
    simp only [Bool.false_and, Bool.false_eq_true, if_false, if_true, Bool.true_or,
      Bool.true_and]
  refine ⟨by rw [hshape, hshape], hshape oc ot tr, ?_⟩
  simp only [List.mem_map, List.mem_filter, Bool.and_eq_true, Bool.or_eq_true,
    Bool.not_eq_true']
  constructor
  · rintro ⟨⟨q, b⟩, ⟨hq, hb, hcs⟩, hp⟩
    simp only at hb hp
    subst hp
    subst hb
    exact ⟨hq, hcs⟩
  · rintro ⟨hq, hcs⟩
    exact ⟨(p, true), ⟨hq, rfl, hcs⟩, rfl⟩
